import Mathlib

/-!
Verification of the core of the `spc-webui` integration: the EDP datagram
decoder (`edp.py`), the UDP listener's filtering logic, and the
event-to-snapshot reducer (`__init__.py`).

The Python code is shallowly embedded: bytes are `List (Fin 256)`, decoded
Latin-1 text is `List Char`, Python `str.strip` / `str.split` / `int(...)` /
`str.upper` and `datetime.strptime` are modelled by executable functions
faithful to their behaviour on the Latin-1 range, dicts are association
lists with Python `{**a, **b}` merge semantics, and the decoder takes the
current clock as an explicit argument (the source reads it via
`datetime.now` in the timestamp fallback).
-/

set_option autoImplicit false

namespace SpcWebui

/-- Decoded Latin-1 text (Python `str` restricted to what the wire can carry). -/
abbrev PyStr := List Char

/-- Python `str.isspace` / the whitespace set stripped by `str.strip()`,
restricted to the Latin-1 range: TAB..CR, FS..US, SPACE, NEL, NBSP. -/
def pyIsSpace (c : Char) : Bool :=
  [9, 10, 11, 12, 13, 28, 29, 30, 31, 32, 133, 160].contains c.toNat

/-- Python `str.strip()`: drop leading and trailing whitespace. -/
def pyStrip (s : PyStr) : PyStr :=
  ((s.dropWhile pyIsSpace).reverse.dropWhile pyIsSpace).reverse

/-- Python `str.split(sep)` for a one-character separator: split at every
occurrence, keeping empty pieces (`"a||b".split("|") == ["a","","b"]`,
`"".split("|") == [""]`). -/
def pySplit (sep : Char) : PyStr → List PyStr
  | [] => [[]]
  | c :: rest =>
    if c = sep then [] :: pySplit sep rest
    else
      match pySplit sep rest with
      | f :: r => (c :: f) :: r
      | [] => [[c]]

/-- Digit run with single underscores between digits, as accepted by Python
`int(...)` after the sign: accumulates the value, rejects a trailing or
doubled underscore. -/
def pyDigitsAux (acc : Nat) : List Char → Option Nat
  | [] => some acc
  | '_' :: rest =>
    match rest with
    | c :: rest' =>
      if c.isDigit then pyDigitsAux (acc * 10 + (c.toNat - 48)) rest' else none
    | [] => none
  | c :: rest =>
    if c.isDigit then pyDigitsAux (acc * 10 + (c.toNat - 48)) rest else none

/-- Nonempty digit run (underscore-separated) starting with a digit. -/
def pyDigits : List Char → Option Nat
  | [] => none
  | c :: rest =>
    if c.isDigit then pyDigitsAux (c.toNat - 48) rest else none

/-- Python `int(s)`: strip whitespace, optional sign, decimal digits
(with single underscores between digits); `none` models `ValueError`. -/
def pyInt (s : PyStr) : Option Int :=
  match pyStrip s with
  | '+' :: rest => (pyDigits rest).map Int.ofNat
  | '-' :: rest => (pyDigits rest).map (fun n => -(n : Int))
  | rest => (pyDigits rest).map Int.ofNat

/-- Python `str.upper()` of a single character from the Latin-1 range
(`ß` expands to `SS`, `µ` maps to Greek capital Mu, `ÿ` to `Ÿ`). -/
def pyUpperChar (c : Char) : List Char :=
  if 97 ≤ c.toNat ∧ c.toNat ≤ 122 then [Char.ofNat (c.toNat - 32)]
  else if c.toNat = 0xdf then ['S', 'S']
  else if c.toNat = 0xb5 then [Char.ofNat 0x39c]
  else if c.toNat = 0xff then [Char.ofNat 0x178]
  else if (0xe0 ≤ c.toNat ∧ c.toNat ≤ 0xfe) ∧ c.toNat ≠ 0xf7 then
    [Char.ofNat (c.toNat - 32)]
  else [c]

/-- Python `str.upper()` on Latin-1 text. -/
def pyUpper (s : PyStr) : PyStr :=
  (s.map pyUpperChar).flatten

/-! ### Timestamps

`_parse_timestamp` calls `datetime.strptime(ts[:14], "%H%M%S%d%m%Y")`.
CPython compiles the format to the regex
`(2[0-3]|[0-1]\d|\d)([0-5]\d|\d)(6[0-1]|[0-5]\d|\d)(3[0-1]|[1-2]\d|0[1-9]|[1-9]| [1-9])(1[0-2]|0[1-9]|[1-9])(\d\d\d\d)`,
matches it from the start with backtracking, requires the whole string to be
consumed, and finally constructs a `datetime`, which validates the day against
the month, the second against 59 (the leap seconds `%S` admits are not
representable), and the year against `MINYEAR = 1`. -/

/-- A parsed wall-clock instant (the code always tags UTC). -/
structure DateTimeUTC where
  year : Nat
  month : Nat
  day : Nat
  hour : Nat
  minute : Nat
  second : Nat
  deriving DecidableEq, Repr

/-- Value of a two-ASCII-digit prefix lying in `[lo, hi]`, with the rest. -/
def matchTwo (lo hi : Nat) : List Char → List (Nat × List Char)
  | c1 :: c2 :: rest =>
    if c1.isDigit ∧ c2.isDigit then
      let v := (c1.toNat - 48) * 10 + (c2.toNat - 48)
      if lo ≤ v ∧ v ≤ hi then [(v, rest)] else []
    else []
  | _ => []

/-- Value of a one-ASCII-digit prefix lying in `[lo, hi]`, with the rest. -/
def matchOne (lo hi : Nat) : List Char → List (Nat × List Char)
  | c :: rest =>
    if c.isDigit ∧ lo ≤ c.toNat - 48 ∧ c.toNat - 48 ≤ hi then
      [(c.toNat - 48, rest)]
    else []
  | _ => []

/-- Hour directive `%H`, alternatives `2[0-3]|[0-1]\d|\d` in regex preference order. -/
def matchHour (s : List Char) : List (Nat × List Char) :=
  matchTwo 20 23 s ++ matchTwo 0 19 s ++ matchOne 0 9 s

/-- Minute directive `%M`, alternatives `[0-5]\d|\d`. -/
def matchMin (s : List Char) : List (Nat × List Char) :=
  matchTwo 0 59 s ++ matchOne 0 9 s

/-- Second directive `%S`, alternatives `6[0-1]|[0-5]\d|\d`: the
leap-second alternative is tried first. -/
def matchSec (s : List Char) : List (Nat × List Char) :=
  matchTwo 60 61 s ++ matchTwo 0 59 s ++ matchOne 0 9 s

/-- Space-padded day, the regex alternative ` [1-9]`: a space then a
nonzero digit. -/
def matchSpaceDay : List Char → List (Nat × List Char)
  | ' ' :: c :: rest =>
    if c.isDigit ∧ 1 ≤ c.toNat - 48 ∧ c.toNat - 48 ≤ 9 then
      [(c.toNat - 48, rest)]
    else []
  | _ => []

/-- Day directive `%d`, alternatives `3[0-1]|[1-2]\d|0[1-9]|[1-9]| [1-9]`. -/
def matchDay (s : List Char) : List (Nat × List Char) :=
  matchTwo 30 31 s ++ matchTwo 10 29 s ++ matchTwo 1 9 s ++ matchOne 1 9 s ++
    matchSpaceDay s

/-- Month directive `%m`, alternatives `1[0-2]|0[1-9]|[1-9]`. -/
def matchMonth (s : List Char) : List (Nat × List Char) :=
  matchTwo 10 12 s ++ matchTwo 1 9 s ++ matchOne 1 9 s

/-- Year directive `%Y`: exactly four digits. -/
def matchYear : List Char → List (Nat × List Char)
  | c1 :: c2 :: c3 :: c4 :: rest =>
    if c1.isDigit ∧ c2.isDigit ∧ c3.isDigit ∧ c4.isDigit then
      [(((c1.toNat - 48) * 10 + (c2.toNat - 48)) * 100 +
        ((c3.toNat - 48) * 10 + (c4.toNat - 48)), rest)]
    else []
  | _ => []

/-- Depth-first backtracking match of `%H%M%S%d%m%Y` against the string,
returning the first complete match and the unconsumed remainder. -/
def matchStamp (s : List Char) :
    Option (Nat × Nat × Nat × Nat × Nat × Nat × List Char) :=
  (matchHour s).findSome? fun (h, r1) =>
  (matchMin r1).findSome? fun (mi, r2) =>
  (matchSec r2).findSome? fun (se, r3) =>
  (matchDay r3).findSome? fun (d, r4) =>
  (matchMonth r4).findSome? fun (mo, r5) =>
  (matchYear r5).findSome? fun (y, r6) => some (h, mi, se, d, mo, y, r6)

/-- Whether `y` is a Gregorian leap year. -/
def isLeapYear (y : Nat) : Bool :=
  y % 4 = 0 ∧ (y % 100 ≠ 0 ∨ y % 400 = 0)

/-- Days in month `m` of year `y` (months out of 1..12 never reach this). -/
def daysInMonth (y m : Nat) : Nat :=
  if m = 2 then (if isLeapYear y then 29 else 28)
  else if m = 4 ∨ m = 6 ∨ m = 9 ∨ m = 11 then 30
  else 31

/-- Model of `datetime.strptime(ts[:14], "%H%M%S%d%m%Y")` as a partial function:
`none` models the `ValueError` branch. The match must consume all of
`ts[:14]` and the resulting `datetime` must be constructible: day within the
month, second at most 59 (a matched leap second is rejected here), year at
least 1. -/
def parseTimestampOpt (ts : PyStr) : Option DateTimeUTC :=
  match matchStamp (ts.take 14) with
  | some (h, mi, se, d, mo, y, rest) =>
    if rest = [] ∧ 1 ≤ y ∧ d ≤ daysInMonth y mo ∧ se ≤ 59 then
      some ⟨y, mo, d, h, mi, se⟩
    else none
  | none => none

/-- Source `_parse_timestamp`: parse the fixed-layout timestamp, falling back to
the current time (`now`, read by the source via `datetime.now`) on failure. -/
def parseTimestamp (now : DateTimeUTC) (ts : PyStr) : DateTimeUTC :=
  (parseTimestampOpt ts).getD now

/-! ### The EDP decoder (`edp.py`) -/

/-- Source `EDP_HEADER_SIZE`: the binary header is 23 bytes; text payload follows. -/
def EDP_HEADER_SIZE : Nat := 23

/-- Source `SUB_DELIM`: the broken-bar sub-delimiter of field 4 (`"\xa6"`). -/
def SUB_DELIM : Char := '¦'

/-- The `EdpEvent` dataclass. -/
structure EdpEvent where
  system_id : Int
  timestamp : DateTimeUTC
  event_class : PyStr
  device_id : Int
  device_name : PyStr
  area_id : Option Int := none
  area_name : Option PyStr := none
  deriving DecidableEq, Repr

/-- Source `_to_utf8`: decode ISO-8859-1 bytes, each byte mapping to the code point
of the same value. -/
def toUtf8 (data : List (Fin 256)) : PyStr :=
  data.map fun b => Char.ofNat b.val

/-- First-some of two options (Python `try`/`except` preference). -/
def optOr {α : Type} (a b : Option α) : Option α :=
  match a with
  | some v => some v
  | none => b

/-- Source `_parse_name_field`: parse the sub-delimited name field, returning
`(device_name, area_id, area_name)`. -/
def parseNameField (raw : PyStr) : PyStr × Option Int × Option PyStr :=
  let parts := pySplit SUB_DELIM raw
  if parts.length ≥ 4 ∧ parts.getD 1 [] = "ZONE".toList then
    -- Zone event: DeviceName ¦ ZONE ¦ AreaID ¦ AreaName
    let device_name := pyStrip (parts.getD 0 [])
    let area_id := pyInt (parts.getD 2 [])
    let area_name := if parts.length > 3 then some (pyStrip (parts.getD 3 [])) else none
    (device_name, area_id, area_name)
  else if parts.length ≥ 3 then
    -- Area/user event: AreaName ¦ UserName ¦ AreaID
    let area_name := pyStrip (parts.getD 0 [])
    let device_name := pyStrip (parts.getD 1 [])
    let area_id := pyInt (parts.getD 2 [])
    (device_name, area_id, some area_name)
  else if parts.length = 2 then
    -- System event: Description ¦ ID
    (pyStrip (parts.getD 0 []), none, none)
  else
    (pyStrip raw, none, none)

/-- The decode failures `parse_edp_message` raises as `ValueError`. -/
inductive DecodeError where
  /-- Error `"EDP packet too short"`. -/
  | tooShort
  /-- Error `"EDP message has too few fields"`. -/
  | tooFewFields
  /-- Error `"EDP invalid system ID"`. -/
  | badSystemId
  /-- Error `"EDP invalid device ID"`. -/
  | badDeviceId
  deriving DecidableEq, Repr

/-- The payload text of a datagram: bytes after the header, Latin-1 decoded,
whitespace-stripped, with one leading `[` and one trailing `]` removed. -/
def payloadText (data : List (Fin 256)) : PyStr :=
  let text := pyStrip (toUtf8 (data.drop EDP_HEADER_SIZE))
  let text := match text with
    | '[' :: rest => rest
    | other => other
  match text.getLast? with
  | some ']' => text.dropLast
  | _ => text

/-- The `|`-separated fields of a datagram's payload. -/
def payloadFields (data : List (Fin 256)) : List PyStr :=
  pySplit '|' (payloadText data)

/-- Field 0 with its optional `#` removed. -/
def stripHash : PyStr → PyStr
  | '#' :: rest => rest
  | other => other

/-- Source `parse_edp_message`: parse a raw EDP UDP packet into an `EdpEvent`;
`Except.error` models the raised `ValueError`. `now` is the clock value
`datetime.now` would return inside the timestamp fallback. -/
def parse_edp_message (now : DateTimeUTC) (data : List (Fin 256)) :
    Except DecodeError EdpEvent :=
  if data.length < EDP_HEADER_SIZE + 5 then .error .tooShort
  else
    let fields := payloadFields data
    if fields.length < 5 then .error .tooFewFields
    else
      match pyInt (stripHash (fields.getD 0 [])) with
      | none => .error .badSystemId
      | some system_id =>
        let timestamp := parseTimestamp now (fields.getD 1 [])
        let event_class := pyUpper (pyStrip (fields.getD 2 []))
        match pyInt (fields.getD 3 []) with
        | none => .error .badDeviceId
        | some device_id =>
          let parsed := parseNameField (fields.getD 4 [])
          .ok { system_id, timestamp, event_class, device_id,
                device_name := parsed.1, area_id := parsed.2.1,
                area_name := parsed.2.2 }

/-- Latin-1 bytes of a Lean string whose characters all lie below 256
(helper for concrete datagrams). -/
def latin1 (s : String) : List (Fin 256) :=
  s.toList.map fun c => ⟨c.toNat % 256, Nat.mod_lt _ (by omega)⟩

/-! ### Python dicts

The reducer works on the coordinator's snapshot dict and on zone-record
dicts. A dict is an association list with unique keys in insertion order;
`pyLookup` is `d[k]` / `d.get(k)`, `dictMerge a b` is `{**a, **b}`: the keys
of `a` in order, values overridden by `b` where present, followed by the
keys of `b` not in `a`. -/

/-- A Python value stored in a zone record (strings and ints suffice for
what the poll and the patch tables put there). -/
inductive PyVal where
  | str : String → PyVal
  | int : Int → PyVal
  deriving DecidableEq, Repr

/-- A zone record: a dict from field name to value. -/
abbrev PyDict := List (String × PyVal)

/-- Dict lookup `d[k]`: value at the first matching key. -/
def pyLookup {K V : Type} [DecidableEq K] (k : K) : List (K × V) → Option V
  | [] => none
  | (k', v) :: rest => if k' = k then some v else pyLookup k rest

/-- Python `{**a, **b}`. -/
def dictMerge {K V : Type} [DecidableEq K] (a b : List (K × V)) : List (K × V) :=
  (a.map fun p =>
    (p.1, match pyLookup p.1 b with
          | some v => v
          | none => p.2)) ++
  b.filter fun p => (pyLookup p.1 a).isNone

/-! ### The reducer (`__init__.py`) -/

/-- Source `EDP_ZONE_EVENTS`: map from EDP event class codes to the zone-state
mutation merged into the zone's data. -/
def EDP_ZONE_EVENTS : List (PyStr × PyDict) :=
  [("ZO".toList, [("input", .str ("open")), ("status", .str ("actuated"))]),
   ("ZC".toList, [("input", .str ("closed")), ("status", .str ("normal"))]),
   ("ZD".toList, [("status", .str ("tamper"))]),
   ("BA".toList, [("status", .str ("actuated"))]),
   ("BR".toList, [("status", .str ("normal"))]),
   ("FA".toList, [("status", .str ("actuated"))]),
   ("FR".toList, [("status", .str ("normal"))])]

/-- Source `EDP_ARM_EVENTS`: map from EDP event class codes to arm state values. -/
def EDP_ARM_EVENTS : List (PyStr × String) :=
  [("CG".toList, "fullset"),
   ("OG".toList, "unset"),
   ("NL".toList, "partset")]

/-- The coordinator's snapshot dict `{"arm_state": ..., "zones": {...}}`,
zones keyed by integer zone id. -/
structure Snapshot where
  arm_state : String
  zones : List (Int × PyDict)
  deriving DecidableEq, Repr

/-- Source `on_edp_event`: merge a decoded event into the coordinator's snapshot.
`data = none` models `coordinator.data is None` (no poll completed yet);
the result is the coordinator's data after the handler runs (unchanged when
the handler returns without calling `async_set_updated_data`). -/
def on_edp_event (data : Option Snapshot) (event : EdpEvent) : Option Snapshot :=
  match data with
  | none => none
  | some d =>
    match pyLookup event.event_class EDP_ARM_EVENTS with
    | some arm => some { d with arm_state := arm }
    | none =>
      match pyLookup event.event_class EDP_ZONE_EVENTS with
      | some patch =>
        let zone_id := event.device_id
        match pyLookup zone_id d.zones with
        | some zone =>
          let updated_zone := dictMerge zone patch
          let new_zones := dictMerge d.zones [(zone_id, updated_zone)]
          some { d with zones := new_zones }
        | none => some d  -- debug log: EDP event for unknown zone
      | none => some d  -- debug log: EDP unhandled event class

/-! ### The listener (`edp.py`, `_EdpProtocol` / `EdpListener`) -/

/-- Source `_EdpProtocol.datagram_received`, as the event handed to the callback:
`none` when the datagram is dropped (parse error or system-id mismatch).
The guard is Python's `if self._system_id and event.system_id != self._system_id`,
where an `int` is truthy iff nonzero. -/
def datagram_received (system_id : Int) (now : DateTimeUTC)
    (data : List (Fin 256)) : Option EdpEvent :=
  match parse_edp_message now data with
  | .error _ => none
  | .ok event =>
    if system_id ≠ 0 ∧ event.system_id ≠ system_id then none
    else some event

/-- State of `EdpListener`: the bound transport is `some handle` while running,
`None` after `stop()` (the callback is outside the state). -/
structure EdpListener where
  port : Int
  system_id : Int
  transport : Option Nat
  deriving DecidableEq, Repr

/-- Source `EdpListener.stop`: close the transport if present and null it out;
returns the new state and the list of transports closed by this call. -/
def EdpListener.stop (l : EdpListener) : EdpListener × List Nat :=
  match l.transport with
  | some t => ({ l with transport := none }, [t])
  | none => (l, [])

/-! ### Spec-side definitions

For the refinement claims we also transcribe the spec's own wording of the
name-field shapes and the two class tables, to be compared with the
definitions taken from the source. -/

/-- The spec's wording of the field-4 shapes, in the spec's stated
precedence: 4+ parts tagged `ZONE`, else 3+ parts, else exactly 2 parts,
else the whole field; returns `(device_name, area_id, area_name)`. -/
def nameFieldSpec (raw : PyStr) : PyStr × Option Int × Option PyStr :=
  let parts := pySplit SUB_DELIM raw
  if parts.length ≥ 4 ∧ parts.getD 1 [] = "ZONE".toList then
    (pyStrip (parts.getD 0 []), pyInt (parts.getD 2 []),
     some (pyStrip (parts.getD 3 [])))
  else if parts.length ≥ 3 then
    (pyStrip (parts.getD 1 []), pyInt (parts.getD 2 []),
     some (pyStrip (parts.getD 0 [])))
  else if parts.length = 2 then
    (pyStrip (parts.getD 0 []), none, none)
  else
    (pyStrip raw, none, none)

/-- The spec's zone-class partial-update table: `ZO → input=open,
status=actuated`; `ZC → input=closed, status=normal`; `ZD → status=tamper`;
`BA`/`FA → status=actuated`; `BR`/`FR → status=normal`. -/
def zonePatchSpec (cls : PyStr) : PyDict :=
  if cls = "ZO".toList then [("input", .str ("open")), ("status", .str ("actuated"))]
  else if cls = "ZC".toList then [("input", .str ("closed")), ("status", .str ("normal"))]
  else if cls = "ZD".toList then [("status", .str ("tamper"))]
  else if cls = "BA".toList ∨ cls = "FA".toList then [("status", .str ("actuated"))]
  else if cls = "BR".toList ∨ cls = "FR".toList then [("status", .str ("normal"))]
  else []

/-- The spec's arm-state table: `CG → fullset`, `OG → unset`, `NL → partset`. -/
def armStateSpec (cls : PyStr) : String :=
  if cls = "CG".toList then ("fullset")
  else if cls = "OG".toList then ("unset")
  else ("partset")

/-! ### Dict lookup lemmas -/

theorem pyLookup_append {K V : Type} [DecidableEq K] (x y : List (K × V)) (k : K) :
    pyLookup k (x ++ y) = optOr (pyLookup k x) (pyLookup k y) := by
  induction x with
  | nil => simp [pyLookup, optOr]
  | cons p rest ih =>
    obtain ⟨k', v⟩ := p
    by_cases h : k' = k <;> simp [pyLookup, h, ih, optOr]

theorem pyLookup_map_override {K V : Type} [DecidableEq K]
    (a b : List (K × V)) (k : K) :
    pyLookup k (a.map fun p =>
      (p.1, match pyLookup p.1 b with | some v => v | none => p.2)) =
      match pyLookup k a with
      | some v => some (match pyLookup k b with | some w => w | none => v)
      | none => none := by
  induction a with
  | nil => simp [pyLookup]
  | cons p rest ih =>
    obtain ⟨k', v⟩ := p
    by_cases h : k' = k
    · subst h; simp [pyLookup]
    · simp [pyLookup, h, ih]

theorem pyLookup_filter_none {K V : Type} [DecidableEq K]
    (a b : List (K × V)) (k : K) :
    pyLookup k (b.filter fun p => (pyLookup p.1 a).isNone) =
      if (pyLookup k a).isNone then pyLookup k b else none := by
  induction b with
  | nil => simp [pyLookup]
  | cons p rest ih =>
    obtain ⟨k', v⟩ := p
    by_cases hk : (pyLookup k' a).isNone
    · by_cases h : k' = k
      · subst h; simp [pyLookup, hk]
      · simp [pyLookup, hk, h, ih]
    · by_cases h : k' = k
      · subst h
        simp only [Bool.not_eq_true] at hk
        simp [List.filter_cons, hk, ih]
      · simp [pyLookup, hk, h, ih]

/-- Lookup in a Python merge `{**a, **b}`: `b` wins, `a` is the fallback. -/
theorem pyLookup_dictMerge {K V : Type} [DecidableEq K]
    (a b : List (K × V)) (k : K) :
    pyLookup k (dictMerge a b) = optOr (pyLookup k b) (pyLookup k a) := by
  unfold dictMerge
  rw [pyLookup_append, pyLookup_map_override, pyLookup_filter_none]
  cases ha : pyLookup k a <;> cases hb : pyLookup k b <;>
    simp [optOr, ha, hb]

/-! ### Concrete data used by the claim theorems and witnesses -/

/-- The payload of the spec's worked example, as Latin-1 bytes. -/
def c1Payload : List (Fin 256) :=
  latin1 ("#1|21155703112020|ZO|12|Front Door¦ZONE¦3¦Garden|")

/-- The event the spec says the worked example decodes to. -/
def c1Event : EdpEvent :=
  { system_id := 1, timestamp := ⟨2020, 11, 3, 21, 15, 57⟩,
    event_class := "ZO".toList, device_id := 12,
    device_name := "Front Door".toList, area_id := some 3,
    area_name := some ("Garden".toList) }

/-- A sample decoded event with a chosen class code, aimed at zone 12. -/
def sampleEvent (cls : String) : EdpEvent :=
  { system_id := 1, timestamp := ⟨2020, 11, 3, 21, 15, 57⟩,
    event_class := cls.toList, device_id := 12,
    device_name := "Front Door".toList }

/-- A sample zone record as the poll produces it. -/
def sampleZone : PyDict :=
  [("zone_id", .int 12), ("zone_name", .str ("Front Door")),
   ("input", .str ("closed")), ("status", .str ("normal"))]

/-- A sample snapshot containing zones 12 and 13. -/
def sampleSnapshot : Snapshot :=
  { arm_state := "unset",
    zones := [(12, sampleZone), (13, [("zone_id", .int 13), ("status", .str ("normal"))])] }

/-- An event with its timestamp replaced by a fixed value (used to compare
decoder runs up to the clock). -/
def eraseTimestamp (e : EdpEvent) : EdpEvent :=
  { e with timestamp := ⟨0, 0, 0, 0, 0, 0⟩ }

/-! ### Claim theorems -/

/-- C1: decoding any 23-byte header followed by the Latin-1 bytes of
`#1|21155703112020|ZO|12|Front Door¦ZONE¦3¦Garden|` succeeds and yields
exactly system_id 1, timestamp 2020-11-03T21:15:57Z, event_class `ZO`,
device_id 12, device_name `Front Door`, area_id 3, area_name `Garden`,
whatever the current clock reads. -/
theorem C1_front_door_datagram (header : List (Fin 256))
    (hlen : header.length = 23) (now : DateTimeUTC) :
    parse_edp_message now (header ++ c1Payload) = .ok c1Event := by
  have hdrop : (header ++ c1Payload).drop EDP_HEADER_SIZE = c1Payload := by
    rw [show EDP_HEADER_SIZE = header.length from hlen.symm, List.drop_left]
  have hlen' : (header ++ c1Payload).length = 72 := by
    rw [List.length_append, hlen]; rfl
  simp only [parse_edp_message, payloadFields, payloadText, hdrop, hlen']
  rfl

/-- Witness for C1 at the all-zero 23-byte header and a fixed clock. -/
theorem C1_front_door_datagram_witness :
    (List.replicate 23 (0 : Fin 256)).length = 23 ∧
    parse_edp_message ⟨2000, 1, 1, 0, 0, 0⟩
      (List.replicate 23 (0 : Fin 256) ++ c1Payload) = .ok c1Event :=
  ⟨rfl, C1_front_door_datagram (List.replicate 23 0) rfl ⟨2000, 1, 1, 0, 0, 0⟩⟩

/-- C2: for every field-4 string, `_parse_name_field` classifies by shape in
the spec's stated precedence — the ZONE-tagged 4-part form first, then the
generic 3-part form, then 2 parts, then the whole field — so a 4-part
ZONE-tagged field is never parsed as the 3-part area shape. -/
theorem C2_name_field_shapes (raw : PyStr) :
    parseNameField raw = nameFieldSpec raw := by
  simp only [parseNameField, nameFieldSpec]
  split_ifs with h1 h2 <;> first
    | rfl
    | (exfalso; omega)

/-- C3: decode fails exactly when the input is too short, the payload has
fewer than five `|`-separated fields, field 0 (after the optional `#`) is
not an integer, or field 3 is not an integer; a malformed timestamp never
fails the decode, and failure yields an error value, never a partial event. -/
theorem C3_failure_conditions (now : DateTimeUTC) (data : List (Fin 256)) :
    (∃ err, parse_edp_message now data = .error err) ↔
      (data.length < EDP_HEADER_SIZE + 5 ∨
       (payloadFields data).length < 5 ∨
       pyInt (stripHash ((payloadFields data).getD 0 [])) = none ∨
       pyInt ((payloadFields data).getD 3 []) = none) := by
  simp only [parse_edp_message]
  split_ifs with h1 h2
  · simp [h1]
  · simp [h2]
  · cases hsys : pyInt (stripHash ((payloadFields data).getD 0 [])) with
    | none => simp [hsys]
    | some sid =>
      cases hdev : pyInt ((payloadFields data).getD 3 []) with
      | none => simp [hdev]
      | some did => simp [h1, h2, hsys, hdev]

/-- C10: every datagram shorter than 28 bytes is rejected as too short —
even the 27-byte one whose 4-byte payload `||||` splits into five fields —
and no datagram of 28 bytes or more is rejected for its length. -/
theorem C10_min_length (now : DateTimeUTC) (data : List (Fin 256)) :
    (parse_edp_message now data = .error .tooShort ↔ data.length < 28) ∧
    parse_edp_message now (List.replicate 23 0 ++ latin1 ("||||")) =
      .error .tooShort := by
  refine ⟨?_, rfl⟩
  have h28 : EDP_HEADER_SIZE + 5 = 28 := rfl
  simp only [parse_edp_message, h28]
  split_ifs with h1 h2
  · simp [h1]
  · simp [h1]
  · cases hsys : pyInt (stripHash ((payloadFields data).getD 0 [])) with
    | none => simp [h1]
    | some sid =>
      cases hdev : pyInt ((payloadFields data).getD 3 []) with
      | none => simp [h1]
      | some did => simp [h1]

/-- C8 as stated is false: the decoder is not a pure function of the raw
bytes alone, because a malformed timestamp field is replaced by the current
time — two invocations at different clock readings disagree on this
datagram. -/
theorem C8_clock_counterexample :
    ¬ ∀ (data : List (Fin 256)) (now1 now2 : DateTimeUTC),
        parse_edp_message now1 data = parse_edp_message now2 data := by
  intro h
  have h2 := h (List.replicate 23 0 ++ latin1 ("#1|XX|ZO|12|Name|"))
    ⟨2000, 1, 1, 0, 0, 0⟩ ⟨2001, 1, 1, 0, 0, 0⟩
  have h3 := congrArg (fun r => (Except.toOption r).map fun e => e.timestamp.year) h2
  exact absurd h3 (by decide)

/-- C8 amended: the decoder's result depends only on the input bytes apart
from the timestamp field — erasing the timestamp makes two invocations agree
on every input (failures included), and whenever field 1 parses as a
timestamp the results are equal outright. -/
theorem C8_decoder_clock_dependence (data : List (Fin 256))
    (now1 now2 : DateTimeUTC) :
    Except.map eraseTimestamp (parse_edp_message now1 data) =
      Except.map eraseTimestamp (parse_edp_message now2 data) ∧
    (∀ t, parseTimestampOpt ((payloadFields data).getD 1 []) = some t →
      parse_edp_message now1 data = parse_edp_message now2 data) := by
  simp only [parse_edp_message]
  split_ifs with h1 h2
  · exact ⟨rfl, fun t _ => rfl⟩
  · exact ⟨rfl, fun t _ => rfl⟩
  · cases hsys : pyInt (stripHash ((payloadFields data).getD 0 [])) with
    | none => exact ⟨rfl, fun t _ => rfl⟩
    | some sid =>
      cases hdev : pyInt ((payloadFields data).getD 3 []) with
      | none => exact ⟨rfl, fun t _ => rfl⟩
      | some did =>
        constructor
        · simp [Except.map, eraseTimestamp]
        · intro t ht
          simp only [parseTimestamp, ht]
          rfl

/-- Witness for the amended C8 at the worked example, whose timestamp field
parses, under two different clocks. -/
theorem C8_decoder_clock_dependence_witness :
    parse_edp_message ⟨2000, 1, 1, 0, 0, 0⟩ (List.replicate 23 0 ++ c1Payload) =
      parse_edp_message ⟨2001, 1, 1, 0, 0, 0⟩ (List.replicate 23 0 ++ c1Payload) :=
  (C8_decoder_clock_dependence (List.replicate 23 0 ++ c1Payload) _ _).2
    ⟨2020, 11, 3, 21, 15, 57⟩ (by decide)

/-- Setting key `k` in a dict (`{**zs, k: u}`) makes `k` map to `u`. -/
theorem pyLookup_dictMerge_self {K V : Type} [DecidableEq K]
    (zs : List (K × V)) (k : K) (u : V) :
    pyLookup k (dictMerge zs [(k, u)]) = some u := by
  rw [pyLookup_dictMerge]
  simp [pyLookup, optOr]

/-- Setting key `k` in a dict leaves every other key's value unchanged. -/
theorem pyLookup_dictMerge_other {K V : Type} [DecidableEq K]
    (zs : List (K × V)) (k : K) (u : V) (z : K) (h : k ≠ z) :
    pyLookup z (dictMerge zs [(k, u)]) = pyLookup z zs := by
  rw [pyLookup_dictMerge]
  simp [pyLookup, optOr, h]

/-- The reducer's zone branch: with the class in no arm mapping, a zone
patch for the class, and the zone present, the snapshot gets exactly that
zone replaced by the Python merge of its record with the patch. -/
theorem on_edp_event_zone (d : Snapshot) (e : EdpEvent) (zone patch : PyDict)
    (harm : pyLookup e.event_class EDP_ARM_EVENTS = none)
    (hzl : pyLookup e.event_class EDP_ZONE_EVENTS = some patch)
    (hz : pyLookup e.device_id d.zones = some zone) :
    on_edp_event (some d) e =
      some { d with
             zones := dictMerge d.zones [(e.device_id, dictMerge zone patch)] } := by
  simp only [on_edp_event, harm, hzl, hz]

/-- C4: for a zone-class event whose device id is a known zone, the reducer
replaces exactly that zone by its old record overwritten with the class's
mapped partial fields (other fields preserved), leaves every other zone's
record untouched, and keeps the arm state. -/
theorem C4_zone_event_merge (d : Snapshot) (e : EdpEvent) (zone : PyDict)
    (hz : pyLookup e.device_id d.zones = some zone)
    (hc : e.event_class ∈ ["ZO".toList, "ZC".toList, "ZD".toList,
          "BA".toList, "BR".toList, "FA".toList, "FR".toList]) :
    ∃ d' : Snapshot, on_edp_event (some d) e = some d' ∧
      d'.arm_state = d.arm_state ∧
      (∀ z : Int, z ≠ e.device_id → pyLookup z d'.zones = pyLookup z d.zones) ∧
      ∃ zr : PyDict, pyLookup e.device_id d'.zones = some zr ∧
        ∀ f : String, pyLookup f zr =
          optOr (pyLookup f (zonePatchSpec e.event_class)) (pyLookup f zone) := by
  obtain ⟨sid, ts, cls, did, dn, aid, an⟩ := e
  simp only [List.mem_cons, List.not_mem_nil, or_false] at hc
  rcases hc with rfl | rfl | rfl | rfl | rfl | rfl | rfl <;>
  · refine ⟨_, on_edp_event_zone d _ zone _ rfl rfl hz, rfl,
      fun z hne => pyLookup_dictMerge_other _ _ _ _ (Ne.symm hne),
      _, pyLookup_dictMerge_self _ _ _, fun f => ?_⟩
    rw [pyLookup_dictMerge]
    rfl

/-- Witness for C4: a `ZO` event for known zone 12 on the sample snapshot. -/
theorem C4_zone_event_merge_witness :
    ∃ d' : Snapshot, on_edp_event (some sampleSnapshot) (sampleEvent ("ZO")) = some d' ∧
      d'.arm_state = sampleSnapshot.arm_state ∧
      (∀ z : Int, z ≠ (sampleEvent ("ZO")).device_id →
        pyLookup z d'.zones = pyLookup z sampleSnapshot.zones) ∧
      ∃ zr : PyDict, pyLookup (sampleEvent ("ZO")).device_id d'.zones = some zr ∧
        ∀ f : String, pyLookup f zr =
          optOr (pyLookup f (zonePatchSpec (sampleEvent ("ZO")).event_class))
            (pyLookup f sampleZone) :=
  C4_zone_event_merge sampleSnapshot (sampleEvent ("ZO")) sampleZone rfl (by decide)

/-- C5: for an event whose class is CG, OG or NL, the reducer sets the arm
state to fullset, unset or partset respectively and keeps the zones mapping
of the input snapshot. -/
theorem C5_arm_event (d : Snapshot) (e : EdpEvent)
    (hc : e.event_class = "CG".toList ∨ e.event_class = "OG".toList ∨
          e.event_class = "NL".toList) :
    on_edp_event (some d) e =
      some { arm_state := armStateSpec e.event_class, zones := d.zones } := by
  obtain ⟨sid, ts, cls, did, dn, aid, an⟩ := e
  rcases hc with rfl | rfl | rfl <;> rfl

/-- Witness for C5: a `CG` event on the sample snapshot. -/
theorem C5_arm_event_witness :
    on_edp_event (some sampleSnapshot) (sampleEvent ("CG")) =
      some { arm_state := armStateSpec (sampleEvent ("CG")).event_class,
             zones := sampleSnapshot.zones } :=
  C5_arm_event sampleSnapshot (sampleEvent ("CG")) (Or.inl rfl)

/-- C6: the reducer is a no-op when no snapshot exists yet, when the class
is in neither table, or when a zone-class event names a zone the snapshot
does not contain. -/
theorem C6_noop (x : Option Snapshot) (e : EdpEvent)
    (h : x = none ∨ ∃ d, x = some d ∧
      pyLookup e.event_class EDP_ARM_EVENTS = none ∧
      (pyLookup e.event_class EDP_ZONE_EVENTS = none ∨
       pyLookup e.device_id d.zones = none)) :
    on_edp_event x e = x := by
  rcases h with rfl | ⟨d, rfl, harm, hz⟩
  · rfl
  · rcases hz with hzl | hzm
    · simp [on_edp_event, harm, hzl]
    · cases hzl : pyLookup e.event_class EDP_ZONE_EVENTS with
      | none => simp [on_edp_event, harm, hzl]
      | some patch => simp [on_edp_event, harm, hzl, hzm]

/-- Witness for C6: an unhandled class code on the sample snapshot. -/
theorem C6_noop_witness :
    on_edp_event (some sampleSnapshot) (sampleEvent ("XX")) = some sampleSnapshot :=
  C6_noop (some sampleSnapshot) (sampleEvent ("XX"))
    (Or.inr ⟨sampleSnapshot, rfl, rfl, Or.inl rfl⟩)

/-- C7: a successfully decoded event is dropped when a nonzero system-id
filter differs from its system id, and reaches the handler whenever the
filter is zero. -/
theorem C7_system_id_filter (filt : Int) (now : DateTimeUTC)
    (data : List (Fin 256)) (e : EdpEvent)
    (hok : parse_edp_message now data = .ok e) :
    (filt ≠ 0 → e.system_id ≠ filt → datagram_received filt now data = none) ∧
    (filt = 0 → datagram_received filt now data = some e) := by
  constructor
  · intro hf hs
    simp [datagram_received, hok, hf, hs]
  · intro hf
    simp [datagram_received, hok, hf]

/-- Witness for C7: the worked example's event (system id 1) is dropped by
filter 5 and delivered by filter 0. -/
theorem C7_system_id_filter_witness :
    datagram_received 5 ⟨2000, 1, 1, 0, 0, 0⟩
        (List.replicate 23 0 ++ c1Payload) = none ∧
    datagram_received 0 ⟨2000, 1, 1, 0, 0, 0⟩
        (List.replicate 23 0 ++ c1Payload) = some c1Event :=
  ⟨(C7_system_id_filter 5 ⟨2000, 1, 1, 0, 0, 0⟩
      (List.replicate 23 0 ++ c1Payload) c1Event (by rfl)).1 (by decide) (by decide),
   (C7_system_id_filter 0 ⟨2000, 1, 1, 0, 0, 0⟩
      (List.replicate 23 0 ++ c1Payload) c1Event (by rfl)).2 rfl⟩

/-- C9: `stop()` is idempotent on the listener's state — after one `stop()`
a second `stop()` leaves the state unchanged and closes nothing. -/
theorem C9_stop_idempotent (l : EdpListener) :
    (EdpListener.stop (EdpListener.stop l).1).1 = (EdpListener.stop l).1 ∧
    (EdpListener.stop (EdpListener.stop l).1).2 = [] := by
  cases h : l.transport <;> simp [EdpListener.stop, h]

end SpcWebui






